import Mathlib

/-!
Shallow embedding of `src/backend/modules/phone_manager.py` (class
`PhoneManager`): the Bluetooth HFP call-state bridge.  Python instance
attributes become fields of `PMState`; each D-Bus signal handler and each
facade command becomes a Lean function on `PMState`.  External effects are
made explicit parameters:

* the outcome of a direct D-Bus object method call (`Answer()`/`Hangup()`)
  is a `Bool` (`true` = returns normally, `false` = raises);
* the outcome of a `subprocess.run(["dbus-send", ...])` invocation is a
  `RunResult` (completes with a return code and stderr, or raises);
* the device address/name lookup performed by `_on_device_connected` is an
  `Option (String × String)` (`none` = no bus, or the property `Get` raised
  before any attribute was written).

The `event_queue` field models the SSE queue `queue.Queue()` (created with
no `maxsize`, hence unbounded): `put_nowait` is an append at the tail.
Direct listener callbacks do not change `PhoneManager` state (exceptions
from them are swallowed), so they are not part of the state.  Two ghost
fields support stating history properties and are written by no code path
except as annotated: `now` counts handled events (a ghost timestamp in
place of `time.strftime("%H:%M")`, which is not injective), and `call_log`
records every head-insertion ever made into `recent_calls`, untruncated.
-/

/-- One entry of `recent_calls`, as built in `_handle_interfaces_removed`.
The Python `time` field is the wall-clock string `time.strftime("%H:%M")`;
it is modelled by the ghost event counter so that recency is expressible. -/
structure RecentCall where
  number : String
  name : String
  type : String
  time : Nat
deriving Repr, DecidableEq

/-- The status dictionary returned by `get_status` (the alias keys `state`
and `caller` always duplicate `call_state` and `caller_id` and are omitted). -/
structure Snapshot where
  connected : Bool
  device : Option String
  device_name : Option String
  call_state : String
  caller_id : Option String
  caller_name : Option String
  recent_calls : List RecentCall
deriving Repr, DecidableEq

/-- The mutable attributes of a `PhoneManager` instance (those the claims
concern), plus the SSE queue and the two ghost fields described above. -/
structure PMState where
  connected_device : Option String
  device_name : Option String
  call_state : String
  caller_id : Option String
  caller_name : Option String
  recent_calls : List RecentCall
  active_call_path : Option String
  event_queue : List Snapshot
  now : Nat
  call_log : List RecentCall
deriving Repr, DecidableEq

/-- Embeds `PhoneManager.__init__`. -/
def initState : PMState :=
  { connected_device := none
    device_name := none
    call_state := "idle"
    caller_id := none
    caller_name := none
    recent_calls := []
    active_call_path := none
    event_queue := []
    now := 0
    call_log := [] }

/-- Embeds `PhoneManager.get_status`. -/
def get_status (s : PMState) : Snapshot :=
  { connected := s.connected_device.isSome
    device := s.connected_device
    device_name := s.device_name
    call_state := s.call_state
    caller_id := s.caller_id
    caller_name := s.caller_name
    recent_calls := s.recent_calls.take 10 }

/-- Embeds `PhoneManager._notify_listeners`: computes `get_status()` once, then
`event_queue.put_nowait(data)` (an unconditional tail append: the queue was
created with the default `maxsize=0`, i.e. unbounded, so `put_nowait` never
raises `queue.Full`), then invokes the direct listener callbacks, whose
exceptions are caught per callback and change no state. -/
def notify_listeners (s : PMState) : PMState :=
  { s with event_queue := s.event_queue ++ [get_status s] }

/-- Python `str.lower()` (as applied to the ASCII daemon state strings):
lowercase each character.  Stated over the character list so the kernel can
evaluate it (`String.toLower`'s well-founded recursion does not reduce). -/
def str_lower (s : String) : String := String.mk (s.data.map Char.toLower)

/-- The dictionary `state_map` of `PhoneManager._update_call_state`. -/
def state_map (k : String) : Option String :=
  if k = "incoming" then some "incoming"
  else if k = "dialing" then some "outgoing"
  else if k = "alerting" then some "alerting"
  else if k = "active" then some "active"
  else if k = "held" then some "held"
  else if k = "waiting" then some "incoming"
  else if k = "disconnected" then some "idle"
  else none

/-- Embeds `PhoneManager._update_call_state`:
`self.call_state = state_map.get(state.lower(), state.lower())`. -/
def update_call_state (s : PMState) (state : String) : PMState :=
  { s with call_state := (state_map (str_lower state)).getD (str_lower state) }

/-- The `changed` dictionary of a `PropertiesChanged` signal on
`org.bluez.Call1`, restricted to the keys the handler reads; also the
property dictionary read by `_handle_interfaces_added`.  `none` models a
key absent from the dictionary. -/
structure CallChanged where
  state : Option String
  lineIdentification : Option String
  name : Option String
deriving Repr, DecidableEq

/-- The `changed` dictionary of a `PropertiesChanged` signal on
`org.bluez.Device1`, restricted to the keys the handler reads. -/
structure DeviceChanged where
  connected : Option Bool
  name : Option String
deriving Repr, DecidableEq

/-- The `interface` and `changed` arguments of `_handle_properties_changed`,
bundled: the handler dispatches on the interface name and then reads only
the keys modelled here; every other interface falls through unchanged. -/
inductive Changed where
  | call (ch : CallChanged)
  | device (ch : DeviceChanged)
  | media (connected : Option Bool)
  | other
deriving Repr, DecidableEq

/-- Embeds `PhoneManager._on_device_connected`.  `devInfo` is the result of the
two property `Get` calls on the daemon device object: `none` when there is
no bus or the lookup raised (the exception is caught and nothing further
happens, in particular no notification). -/
def on_device_connected (s : PMState) (devInfo : Option (String × String)) : PMState :=
  match devInfo with
  | some (addr, nm) =>
      notify_listeners { s with connected_device := some addr, device_name := some nm }
  | none => s

/-- Embeds `PhoneManager._on_device_disconnected`. -/
def on_device_disconnected (s : PMState) : PMState :=
  notify_listeners
    { s with
      connected_device := none
      device_name := none
      call_state := "idle"
      caller_id := none
      caller_name := none
      active_call_path := none }

/-- Embeds `PhoneManager._handle_properties_changed`.  `path` is the signal's
object path keyword argument; `path_str = str(path) if path else ""`. -/
def handle_properties_changed (s : PMState) (path : Option String) (ch : Changed)
    (devInfo : Option (String × String)) : PMState :=
  let path_str := path.getD ""
  match ch with
  | .call c =>
      let s1 := match c.state with
        | some ns => { update_call_state s ns with active_call_path := some path_str }
        | none => s
      let s2 := match c.lineIdentification with
        | some cid => { s1 with caller_id := some cid }
        | none => s1
      let s3 := match c.name with
        | some nm => { s2 with caller_name := some nm }
        | none => s2
      notify_listeners s3
  | .device c =>
      let s1 := match c.connected with
        | some true => on_device_connected s devInfo
        | some false => on_device_disconnected s
        | none => s
      match c.name with
      | some nm => notify_listeners { s1 with device_name := some nm }
      | none => s1
  | .media _ => s
  | .other => s

/-- Embeds `PhoneManager._handle_interfaces_added`: `callProps` is the
`org.bluez.Call1` entry of the `interfaces` dictionary (`none` when that
interface is not among the added ones, in which case nothing happens). -/
def handle_interfaces_added (s : PMState) (path : String)
    (callProps : Option CallChanged) : PMState :=
  match callProps with
  | none => s
  | some c =>
      let s1 := { s with active_call_path := some path }
      let s2 := match c.state with
        | some ns => update_call_state s1 ns
        | none => s1
      let s3 := match c.lineIdentification with
        | some cid => { s2 with caller_id := some cid }
        | none => s2
      let s4 := match c.name with
        | some nm => { s3 with caller_name := some nm }
        | none => s3
      notify_listeners s4

/-- Embeds `PhoneManager._handle_interfaces_removed`: `hasCall1` is whether
`"org.bluez.Call1" in interfaces`.  The new `recent_calls` entry's `time`
is the ghost event counter (in the source, `time.strftime("%H:%M")`); the
ghost `call_log` records the same entry without the `[:20]` truncation. -/
def handle_interfaces_removed (s : PMState) (hasCall1 : Bool) : PMState :=
  if hasCall1 then
    let s1 := match s.caller_id with
      | some cid =>
          let entry : RecentCall :=
            { number := cid
              name := s.caller_name.getD cid
              type := if s.call_state = "incoming" then "incoming" else "outgoing"
              time := s.now }
          { s with
            recent_calls := (entry :: s.recent_calls).take 20
            call_log := entry :: s.call_log }
      | none => s
    notify_listeners
      { s1 with
        call_state := "idle"
        caller_id := none
        caller_name := none
        active_call_path := none }
  else s

/-- The module-level environment flags: `IS_LINUX`, `DBUS_AVAILABLE`, and
whether `self._bus` is set (truthy). -/
structure Env where
  isLinux : Bool
  dbusAvailable : Bool
  hasBus : Bool
deriving Repr, DecidableEq

/-- Outcome of a `subprocess.run(["dbus-send", ...], ...)` invocation:
either the process completed with a return code and captured stderr, or
the call raised (e.g. `TimeoutExpired`, or the binary being absent). -/
inductive RunResult where
  | completed (returncode : Int) (stderr : String)
  | throws (msg : String)
deriving Repr, DecidableEq

/-- A daemon invocation attempted by a facade command (for stating which
commands reach the daemon at all). -/
inductive DaemonCall where
  | dbusAnswer (path : String)
  | dbusHangup (path : String)
  | dbusSendAnswer (path : String)
  | dbusSendHangup (path : String)
deriving Repr, DecidableEq

/-- The `{success, message}` dictionary returned by every facade command. -/
structure CmdResult where
  success : Bool
  message : Option String
deriving Repr, DecidableEq

/-- Python truthiness of `self._active_call_path` (a `str` or `None`):
`None` and `""` are falsy. -/
def truthy_path : Option String → Bool
  | some p => p != ""
  | none => false

/-- The guard of "Method 1" in `answer_call`/`hangup_call`:
`DBUS_AVAILABLE and self._bus and self._active_call_path`. -/
def try_direct (env : Env) (s : PMState) : Bool :=
  env.dbusAvailable && env.hasBus && truthy_path s.active_call_path

/-- The object path passed to `dbus-send`:
`self._active_call_path or "/org/bluez"`. -/
def fallback_path (s : PMState) : String :=
  match s.active_call_path with
  | some p => if p = "" then "/org/bluez" else p
  | none => "/org/bluez"

/-- Embeds `PhoneManager.answer_call`.  `direct` is whether the in-process D-Bus
`Answer()` call returns normally (`false` = it, or obtaining its proxy,
raises — caught by the inner `except` and logged); `run` is the
`dbus-send` fallback's outcome, whose exception (if any) is caught by the
outer `except` and turned into a failure result.  Returns the result, the
state after the call, and the daemon invocations attempted. -/
def answer_call (env : Env) (s : PMState) (direct : Bool) (run : RunResult) :
    CmdResult × PMState × List DaemonCall :=
  if !env.isLinux then
    ({ success := false, message := some "Not supported on this platform" }, s, [])
  else if s.call_state ≠ "incoming" then
    ({ success := false, message := some "No incoming call to answer" }, s, [])
  else if try_direct env s && direct then
    ({ success := true, message := none }, s,
      [.dbusAnswer (s.active_call_path.getD "")])
  else
    let attempted : List DaemonCall :=
      (if try_direct env s then [.dbusAnswer (s.active_call_path.getD "")] else [])
        ++ [.dbusSendAnswer (fallback_path s)]
    match run with
    | .completed rc stderr =>
        if rc = 0 then ({ success := true, message := none }, s, attempted)
        else ({ success := false, message := some stderr }, s, attempted)
    | .throws msg =>
        ({ success := false, message := some msg }, s, attempted)

/-- Embeds `PhoneManager.hangup_call`.  Same conventions as `answer_call`.  On the
direct path's success, and after the `dbus-send` fallback completes
(whatever its return code), the local `call_state` is set to `"idle"` and
`_notify_listeners()` runs; when the fallback invocation itself raises,
the outer `except` returns a failure before either happens. -/
def hangup_call (env : Env) (s : PMState) (direct : Bool) (run : RunResult) :
    CmdResult × PMState × List DaemonCall :=
  if !env.isLinux then
    ({ success := false, message := some "Not supported on this platform" }, s, [])
  else if s.call_state = "idle" then
    ({ success := false, message := some "No active call" }, s, [])
  else if try_direct env s && direct then
    ({ success := true, message := none },
      notify_listeners { s with call_state := "idle" },
      [.dbusHangup (s.active_call_path.getD "")])
  else
    let attempted : List DaemonCall :=
      (if try_direct env s then [.dbusHangup (s.active_call_path.getD "")] else [])
        ++ [.dbusSendHangup (fallback_path s)]
    match run with
    | .completed rc _stderr =>
        let s1 := notify_listeners { s with call_state := "idle" }
        if rc = 0 then ({ success := true, message := none }, s1, attempted)
        else ({ success := true, message := some "State updated" }, s1, attempted)
    | .throws msg =>
        ({ success := false, message := some msg }, s, attempted)

/-- Embeds `PhoneManager.reject_call`: an alias for `hangup_call`. -/
def reject_call (env : Env) (s : PMState) (direct : Bool) (run : RunResult) :
    CmdResult × PMState × List DaemonCall :=
  hangup_call env s direct run

/-- The number-cleaning comprehension of `dial_number`:
`''.join(c for c in number if c.isdigit() or c in '+*#')`. -/
def sanitize_number (number : String) : String :=
  String.mk (number.data.filter fun c => c.isDigit || c == '+' || c == '*' || c == '#')

/-- Embeds `PhoneManager.dial_number`.  Returns the result, the state after the
call, and the sanitized number the function computed internally (`""` on
the early-return paths that never reach the sanitization). -/
def dial_number (env : Env) (s : PMState) (number : String) :
    CmdResult × PMState × String :=
  if !env.isLinux then
    ({ success := false, message := some "Not supported on this platform" }, s, "")
  else if number = "" then
    ({ success := false, message := some "No number provided" }, s, "")
  else if !(truthy_path s.connected_device) then
    ({ success := false, message := some "No phone connected" }, s, "")
  else
    ({ success := false, message := some "Outgoing calls require phone initiation" },
      s, sanitize_number number)

/-- Embeds `PhoneManager.send_dtmf`. -/
def send_dtmf (env : Env) (s : PMState) (_digit : String) : CmdResult × PMState :=
  if !env.isLinux then
    ({ success := false, message := some "Not supported on this platform" }, s)
  else if s.call_state ≠ "active" then
    ({ success := false, message := some "No active call" }, s)
  else
    ({ success := false, message := some "DTMF not implemented" }, s)

/-- Embeds `PhoneManager._check_connected_devices` (the startup enumeration):
`dev` is the address/name of the first connected `Device1`, if any. -/
def check_connected_devices (s : PMState) (dev : Option (String × String)) : PMState :=
  match dev with
  | some (addr, nm) =>
      notify_listeners { s with connected_device := some addr, device_name := some nm }
  | none => s

/-- Embeds `PhoneManager._check_connection_bluetoothctl` (the polling fallback):
`found` is the first `Device <addr> <name>` line of the `bluetoothctl`
output, if any.  Python truthiness of `self.connected_device` gates the
lost-device branch. -/
def check_connection_bluetoothctl (s : PMState) (found : Option (String × String)) : PMState :=
  match found with
  | some (addr, nm) =>
      if s.connected_device ≠ some addr then
        notify_listeners { s with connected_device := some addr, device_name := some nm }
      else s
  | none =>
      if truthy_path s.connected_device then on_device_disconnected s else s

/-- One inbound event of the bridge: a daemon signal delivered to one of the
three handlers, a facade command from the HTTP layer, or one round of the
startup/polling device checks.  Command events carry the environment flags
and the daemon outcomes as explained on the command definitions. -/
inductive Event where
  | propsChanged (path : Option String) (ch : Changed) (devInfo : Option (String × String))
  | ifacesAdded (path : String) (callProps : Option CallChanged)
  | ifacesRemoved (path : String) (hasCall1 : Bool)
  | cmdAnswer (env : Env) (direct : Bool) (run : RunResult)
  | cmdHangup (env : Env) (direct : Bool) (run : RunResult)
  | cmdReject (env : Env) (direct : Bool) (run : RunResult)
  | cmdDial (env : Env) (number : String)
  | cmdDtmf (env : Env) (digit : String)
  | startupCheck (dev : Option (String × String))
  | pollCheck (found : Option (String × String))

/-- The state mutation performed by one event (command results discarded). -/
def applyEvent (s : PMState) : Event → PMState
  | .propsChanged path ch devInfo => handle_properties_changed s path ch devInfo
  | .ifacesAdded path callProps => handle_interfaces_added s path callProps
  | .ifacesRemoved _path hasCall1 => handle_interfaces_removed s hasCall1
  | .cmdAnswer env direct run => (answer_call env s direct run).2.1
  | .cmdHangup env direct run => (hangup_call env s direct run).2.1
  | .cmdReject env direct run => (reject_call env s direct run).2.1
  | .cmdDial env number => (dial_number env s number).2.1
  | .cmdDtmf env digit => (send_dtmf env s digit).2
  | .startupCheck dev => check_connected_devices s dev
  | .pollCheck found => check_connection_bluetoothctl s found

/-- One step: the ghost event counter ticks, then the event is handled. -/
def step (s : PMState) (e : Event) : PMState :=
  applyEvent { s with now := s.now + 1 } e

/-- The state reached from `__init__` by a sequence of events. -/
def run (es : List Event) : PMState :=
  es.foldl step initState

/-! ## Helper definitions used by the theorems -/

/-- The environment on the target device: Linux with dbus-python importable
and a system bus obtained. -/
def envLinux : Env := { isLinux := true, dbusAvailable := true, hasBus := true }

/-- Applies `n` successive `_notify_listeners()` invocations. -/
def notify_iter : Nat → PMState → PMState
  | 0, s => s
  | n + 1, s => notify_iter n (notify_listeners s)

/-- Does `needle` occur at the start of `hay`? (over character lists). -/
def starts_with_chars : List Char → List Char → Bool
  | [], _ => true
  | _ :: _, [] => false
  | a :: as, b :: bs => a == b && starts_with_chars as bs

/-- Does `needle` occur anywhere in `hay`? (substring test over character
lists, used to state "message contains ..."). -/
def contains_chars (needle : List Char) : List Char → Bool
  | [] => starts_with_chars needle []
  | hay@(_ :: tl) => starts_with_chars needle hay || contains_chars needle tl

/-- All fields of a `PhoneManager` except the SSE `event_queue`: the phone
state proper, as opposed to the stream of emitted snapshots. -/
def phone_fields (s : PMState) :
    Option String × Option String × String × Option String × Option String ×
      List RecentCall × Option String × Nat × List RecentCall :=
  (s.connected_device, s.device_name, s.call_state, s.caller_id, s.caller_name,
    s.recent_calls, s.active_call_path, s.now, s.call_log)

/-- The event sequence exhibiting C1's counterexample: an incoming call is
announced by `InterfacesAdded` with state and caller id, then the user hangs
up and the direct D-Bus `Hangup()` succeeds. -/
def c1_events : List Event :=
  [Event.ifacesAdded "/hfp/call1"
      (some { state := some "incoming", lineIdentification := some "+15551234567", name := none }),
    Event.cmdHangup envLinux true (RunResult.completed 0 "")]

/-! ## The claims -/

/-- C1 counterexample: the reachable state after an incoming call is
announced and then hung up (direct daemon call succeeding) has
`call_state = "idle"` while `caller_id`, `caller_name`'s companion fields and
`_active_call_path` are still populated — `hangup_call` resets the state but
clears no caller field, so the claimed invariant fails on a reachable state. -/
theorem C1_counterexample :
    (run c1_events).call_state = "idle" ∧
    (run c1_events).caller_id = some "+15551234567" ∧
    (run c1_events).active_call_path = some "/hfp/call1" := by decide

/-- C1 (amended): the two signal handlers that force `call_state` to
`"idle"` — device disconnect and Call1 interface removal — do clear
`caller_id`, `caller_name` and `_active_call_path`, so those fields are null
after any such reset signal; but the invariant over all reachable states
fails, because `hangup_call` resets `call_state` to `"idle"` without
clearing them (see the counterexample). -/
theorem C1_theorem (s : PMState) :
    ((on_device_disconnected s).call_state = "idle" ∧
      (on_device_disconnected s).caller_id = none ∧
      (on_device_disconnected s).caller_name = none ∧
      (on_device_disconnected s).active_call_path = none) ∧
    ((handle_interfaces_removed s true).call_state = "idle" ∧
      (handle_interfaces_removed s true).caller_id = none ∧
      (handle_interfaces_removed s true).caller_name = none ∧
      (handle_interfaces_removed s true).active_call_path = none) := by
  refine ⟨⟨rfl, rfl, rfl, rfl⟩, ?_⟩
  unfold handle_interfaces_removed
  cases s.caller_id <;> simp [notify_listeners]

/-- The starting state of C2's counterexample: a call is active. -/
def c2_start : PMState := { initState with call_state := "active" }

/-- C2 counterexample: from a state with an active call, when the direct
D-Bus `Hangup()` is unavailable or throws and the `dbus-send` fallback
invocation itself raises (e.g. a timeout), `hangup_call` returns through the
outer `except` before the optimistic `call_state = "idle"` assignment: the
local state is left `"active"` and no snapshot is emitted. -/
theorem C2_counterexample :
    envLinux.isLinux = true ∧
    c2_start.call_state ≠ "idle" ∧
    (hangup_call envLinux c2_start false (RunResult.throws "timed out")).2.1.call_state ≠ "idle" ∧
    (hangup_call envLinux c2_start false (RunResult.throws "timed out")).2.1.event_queue
      = c2_start.event_queue := by decide

/-- C2 (amended): on Linux, from any state with `call_state ≠ "idle"`,
`hangup_call` leaves `call_state = "idle"` and appends exactly one fresh
snapshot to the event queue whenever the `dbus-send` fallback completes
(with any exit code) or the direct daemon call succeeds; but when the
direct call does not succeed and the fallback invocation itself throws,
the state is returned unchanged (no idle reset, no snapshot) with a
`{success: false}` result. -/
theorem C2_theorem (env : Env) (s : PMState) (direct : Bool) (rc : Int)
    (stderr msg : String) (hL : env.isLinux = true) (hs : s.call_state ≠ "idle") :
    ((hangup_call env s direct (RunResult.completed rc stderr)).2.1.call_state = "idle" ∧
      (hangup_call env s direct (RunResult.completed rc stderr)).2.1.event_queue
        = s.event_queue ++ [get_status { s with call_state := "idle" }]) ∧
    ((try_direct env s && direct) = true →
      (hangup_call env s direct (RunResult.throws msg)).2.1.call_state = "idle" ∧
      (hangup_call env s direct (RunResult.throws msg)).2.1.event_queue
        = s.event_queue ++ [get_status { s with call_state := "idle" }]) ∧
    ((try_direct env s && direct) = false →
      (hangup_call env s direct (RunResult.throws msg)).2.1 = s ∧
      (hangup_call env s direct (RunResult.throws msg)).1
        = { success := false, message := some msg }) := by
  unfold hangup_call
  simp only [hL, Bool.not_true, if_neg hs]
  refine ⟨?_, ?_, ?_⟩
  · cases h : try_direct env s && direct <;>
      simp only [h, Bool.false_eq_true, if_true, if_false, Bool.true_eq_false] <;>
      first
        | exact ⟨rfl, rfl⟩
        | (split <;> exact ⟨rfl, rfl⟩)
  · intro h; simp [h, notify_listeners, get_status]
  · intro h; simp [h]

/-- C2 witness: the amended theorem applied at a concrete active-call state
on Linux, with the fallback completing with exit code 1. -/
theorem C2_witness :
    ((hangup_call envLinux c2_start false (RunResult.completed 1 "err")).2.1.call_state = "idle" ∧
      (hangup_call envLinux c2_start false (RunResult.completed 1 "err")).2.1.event_queue
        = c2_start.event_queue ++ [get_status { c2_start with call_state := "idle" }]) ∧
    ((try_direct envLinux c2_start && false) = true →
      (hangup_call envLinux c2_start false (RunResult.throws "x")).2.1.call_state = "idle" ∧
      (hangup_call envLinux c2_start false (RunResult.throws "x")).2.1.event_queue
        = c2_start.event_queue ++ [get_status { c2_start with call_state := "idle" }]) ∧
    ((try_direct envLinux c2_start && false) = false →
      (hangup_call envLinux c2_start false (RunResult.throws "x")).2.1 = c2_start ∧
      (hangup_call envLinux c2_start false (RunResult.throws "x")).1
        = { success := false, message := some "x" }) :=
  C2_theorem envLinux c2_start false 1 "err" "x" rfl (by decide)

/-- C3 counterexample: an unrecognized daemon state string does not pass
through verbatim — `_update_call_state` lowercases it first, so `"Ringing"`
becomes `"ringing"`, not the original string unchanged. -/
theorem C3_counterexample :
    (update_call_state initState "Ringing").call_state ≠ "Ringing" ∧
    (update_call_state initState "Ringing").call_state = "ringing" := by decide

/-- C3 (amended): `_update_call_state` maps the lowercased daemon string
through the table incoming→incoming, dialing→outgoing, alerting→alerting,
active→active, held→held, waiting→incoming, disconnected→idle (hence the
mapping is case-insensitive); any string whose lowercasing is outside the
table yields its lowercasing — not the original string verbatim. -/
theorem C3_theorem (s : PMState) (st : String) :
    (str_lower st = "incoming" → (update_call_state s st).call_state = "incoming") ∧
    (str_lower st = "dialing" → (update_call_state s st).call_state = "outgoing") ∧
    (str_lower st = "alerting" → (update_call_state s st).call_state = "alerting") ∧
    (str_lower st = "active" → (update_call_state s st).call_state = "active") ∧
    (str_lower st = "held" → (update_call_state s st).call_state = "held") ∧
    (str_lower st = "waiting" → (update_call_state s st).call_state = "incoming") ∧
    (str_lower st = "disconnected" → (update_call_state s st).call_state = "idle") ∧
    (str_lower st ∉ ["incoming", "dialing", "alerting", "active", "held",
        "waiting", "disconnected"] →
      (update_call_state s st).call_state = str_lower st) := by
  refine ⟨?_, ?_, ?_, ?_, ?_, ?_, ?_, ?_⟩ <;> intro h <;>
    simp only [update_call_state, state_map, h] <;>
    first
      | rfl
      | · simp only [List.mem_cons, List.not_mem_nil, or_false, not_or] at h
          obtain ⟨h1, h2, h3, h4, h5, h6, h7⟩ := h
          simp [h1, h2, h3, h4, h5, h6, h7]

/-- C3 witness: the amended theorem applied at the concrete inputs
`"DIALING"` (table, case-insensitive) and `"Ringing"` (passthrough). -/
theorem C3_witness :
    (update_call_state initState "DIALING").call_state = "outgoing" ∧
    (update_call_state initState "Ringing").call_state = "ringing" :=
  ⟨(C3_theorem initState "DIALING").2.1 (by decide),
    (C3_theorem initState "Ringing").2.2.2.2.2.2.2 (by decide)⟩

/-- C4 counterexample: one `PropertiesChanged` delivery on
`org.bluez.Device1` whose change-set carries both `Connected` (false) and
`Name` invokes the event fan-out twice — once inside
`_on_device_disconnected` and once more in the `Name` branch — so two
snapshots are enqueued for a single inbound signal. -/
theorem C4_counterexample :
    (handle_properties_changed initState (some "/dev")
        (Changed.device { connected := some false, name := some "Pixel 7" })
        none).event_queue.length
      = initState.event_queue.length + 2 := by decide

/-- C4 (amended): each handler branch ends in exactly one `_notify_listeners`
invocation — a Call1 properties change, a Call1 interface addition, a Call1
interface removal, a Device1 name-only change, a Device1 disconnect without
a name, and a Device1 connect (with the device lookup succeeding) each
enqueue exactly one snapshot — but a single Device1 signal carrying both
`Connected` and `Name` enqueues two, so the fan-out is per branch taken,
not exactly once per mutating signal. -/
theorem C4_theorem (s : PMState) (path : Option String) (p2 addr dn nm : String)
    (c cp : CallChanged) :
    ((handle_properties_changed s path (Changed.call c) none).event_queue.length
      = s.event_queue.length + 1) ∧
    ((handle_interfaces_added s p2 (some cp)).event_queue.length
      = s.event_queue.length + 1) ∧
    ((handle_interfaces_removed s true).event_queue.length
      = s.event_queue.length + 1) ∧
    ((handle_properties_changed s path
        (Changed.device { connected := none, name := some nm }) none).event_queue.length
      = s.event_queue.length + 1) ∧
    ((handle_properties_changed s path
        (Changed.device { connected := some false, name := none }) none).event_queue.length
      = s.event_queue.length + 1) ∧
    ((handle_properties_changed s path
        (Changed.device { connected := some true, name := none })
        (some (addr, dn))).event_queue.length
      = s.event_queue.length + 1) ∧
    ((handle_properties_changed s path
        (Changed.device { connected := some false, name := some nm })
        none).event_queue.length
      = s.event_queue.length + 2) := by
  obtain ⟨cs, cl, cn⟩ := c
  obtain ⟨ps, pl, pn⟩ := cp
  refine ⟨?_, ?_, ?_, ?_, ?_, ?_, ?_⟩
  · cases cs <;> cases cl <;> cases cn <;>
      simp [handle_properties_changed, notify_listeners, update_call_state]
  · cases ps <;> cases pl <;> cases pn <;>
      simp [handle_interfaces_added, notify_listeners, update_call_state]
  · unfold handle_interfaces_removed
    cases s.caller_id <;> simp [notify_listeners]
  · simp [handle_properties_changed, notify_listeners]
  · simp [handle_properties_changed, on_device_disconnected, notify_listeners]
  · simp [handle_properties_changed, on_device_connected, notify_listeners]
  · simp [handle_properties_changed, on_device_disconnected, notify_listeners]

/-- Each `_notify_listeners` invocation grows the event queue by one. -/
theorem notify_iter_length (n : Nat) :
    ∀ s : PMState, (notify_iter n s).event_queue.length = s.event_queue.length + n := by
  induction n with
  | zero => intro s; rfl
  | succ k ih =>
      intro s
      simp only [notify_iter, ih, notify_listeners]
      simp [Nat.add_comm, Nat.add_assoc, Nat.add_left_comm]

/-- C5 counterexample: the streaming event queue is not bounded by any fixed
finite capacity — `queue.Queue()` is created with the default `maxsize=0`
(unbounded), `put_nowait` never raises `queue.Full`, and successive
notifications grow the queue past every candidate bound, so no snapshot is
ever dropped for being over capacity. -/
theorem C5_counterexample :
    ¬ ∃ c : Nat, ∀ n : Nat, (notify_iter n initState).event_queue.length ≤ c := by
  rintro ⟨c, h⟩
  have hc := h (c + 1)
  rw [notify_iter_length] at hc
  simp only [initState, List.length_nil, Nat.zero_add] at hc
  omega

/-- C5 (amended): the enqueue performed by `_notify_listeners` is a
non-blocking tail append — each notification appends exactly the fresh
snapshot at the back of the queue (FIFO order) and signal processing
continues — but the queue is unbounded: `n` notifications from the initial
state leave `n` queued snapshots, exceeding every fixed capacity, and no
snapshot is ever dropped. -/
theorem C5_theorem (s : PMState) (n : Nat) :
    (notify_listeners s).event_queue = s.event_queue ++ [get_status s] ∧
    (notify_iter n initState).event_queue.length = n := by
  refine ⟨rfl, ?_⟩
  rw [notify_iter_length]
  simp [initState]

/-- C7: on Linux, when `call_state ≠ "incoming"`, `answer_call` returns
`{success: false}` with a message, attempts no daemon invocation (neither
the direct `Answer()` nor the `dbus-send` fallback), and returns the state
entirely unchanged. -/
theorem C7_theorem (env : Env) (s : PMState) (direct : Bool) (run : RunResult)
    (hL : env.isLinux = true) (h : s.call_state ≠ "incoming") :
    (answer_call env s direct run).1.success = false ∧
    (answer_call env s direct run).1.message = some "No incoming call to answer" ∧
    (answer_call env s direct run).2.1 = s ∧
    (answer_call env s direct run).2.2 = [] := by
  unfold answer_call
  simp [hL, h]

/-- C7 witness: the theorem applied at the initial state (idle, so not
incoming) on Linux. -/
theorem C7_witness :
    (answer_call envLinux initState true (RunResult.completed 0 "")).1.success = false ∧
    (answer_call envLinux initState true (RunResult.completed 0 "")).1.message
      = some "No incoming call to answer" ∧
    (answer_call envLinux initState true (RunResult.completed 0 "")).2.1 = initState ∧
    (answer_call envLinux initState true (RunResult.completed 0 "")).2.2 = [] :=
  C7_theorem envLinux initState true (RunResult.completed 0 "") rfl (by decide)

/-- C8: `_on_device_disconnected` nulls `connected_device` and
`device_name`, forces `call_state` to `"idle"`, and clears `caller_id`,
`caller_name` and `_active_call_path`, from every prior state; applying it
twice yields the same phone state as applying it once (`phone_fields`:
every field except the SSE event queue, which is an output channel — each
invocation also emits one snapshot to it). -/
theorem C8_theorem (s : PMState) :
    (on_device_disconnected s).connected_device = none ∧
    (on_device_disconnected s).device_name = none ∧
    (on_device_disconnected s).call_state = "idle" ∧
    (on_device_disconnected s).caller_id = none ∧
    (on_device_disconnected s).caller_name = none ∧
    (on_device_disconnected s).active_call_path = none ∧
    (on_device_disconnected s).recent_calls = s.recent_calls ∧
    phone_fields (on_device_disconnected (on_device_disconnected s))
      = phone_fields (on_device_disconnected s) := by
  refine ⟨rfl, rfl, rfl, rfl, rfl, rfl, rfl, rfl⟩

/-- On Linux with a device connected (truthy address) and a non-empty
number, `dial_number` reaches the sanitization and the permanent-limitation
return. -/
theorem dial_connected (env : Env) (s : PMState) (number : String)
    (hL : env.isLinux = true) (hc : truthy_path s.connected_device = true)
    (hn : number ≠ "") :
    dial_number env s number
      = ({ success := false, message := some "Outgoing calls require phone initiation" },
          s, sanitize_number number) := by
  unfold dial_number
  rw [hL, hc]
  simp [hn]

/-- C9: on Linux with a device connected, `dial_number "555-1234"` fails
with a message containing "require" and internally sanitizes the number to
`"5551234"`; and for every non-empty number, `dial_number` never succeeds. -/
theorem C9_theorem (env : Env) (s : PMState) (number : String)
    (hL : env.isLinux = true) (hc : truthy_path s.connected_device = true)
    (hn : number ≠ "") :
    (dial_number env s "555-1234").1.success = false ∧
    contains_chars "require".data
      ((dial_number env s "555-1234").1.message.getD "").data = true ∧
    (dial_number env s "555-1234").2.2 = "5551234" ∧
    (dial_number env s number).1.success = false := by
  rw [dial_connected env s "555-1234" hL hc (by decide),
    dial_connected env s number hL hc hn]
  refine ⟨rfl, rfl, rfl, rfl⟩

/-- C9 witness: the theorem applied on Linux with a concrete connected
device and the non-empty number "1". -/
theorem C9_witness :
    (dial_number envLinux { initState with connected_device := some "AA:BB:CC:DD:EE:FF" }
        "555-1234").1.success = false ∧
    contains_chars "require".data
      ((dial_number envLinux { initState with connected_device := some "AA:BB:CC:DD:EE:FF" }
          "555-1234").1.message.getD "").data = true ∧
    (dial_number envLinux { initState with connected_device := some "AA:BB:CC:DD:EE:FF" }
        "555-1234").2.2 = "5551234" ∧
    (dial_number envLinux { initState with connected_device := some "AA:BB:CC:DD:EE:FF" }
        "1").1.success = false :=
  C9_theorem envLinux { initState with connected_device := some "AA:BB:CC:DD:EE:FF" }
    "1" rfl (by decide) (by decide)

/-- C10: on Linux, from a non-idle call state with a usable direct path
whose `Hangup()` throws, when the `dbus-send` fallback completes with a
nonzero exit code, `hangup_call` still reports
`{success: true, message: "State updated"}` to the caller (the daemon
round-trip failed on both paths yet the HTTP response is a success), with
the local state reset to idle. -/
theorem C10_theorem (env : Env) (s : PMState) (rc : Int) (stderr : String)
    (hL : env.isLinux = true) (hs : s.call_state ≠ "idle")
    (hd : try_direct env s = true) (hrc : rc ≠ 0) :
    (hangup_call env s false (RunResult.completed rc stderr)).1
      = { success := true, message := some "State updated" } ∧
    (hangup_call env s false (RunResult.completed rc stderr)).2.1.call_state = "idle" ∧
    (hangup_call env s false (RunResult.completed rc stderr)).2.2
      = [DaemonCall.dbusHangup (s.active_call_path.getD ""),
          DaemonCall.dbusSendHangup (fallback_path s)] := by
  unfold hangup_call
  simp [hL, hs, hd, hrc, notify_listeners]

/-- The starting state of C10's witness: a call is active and the call
object path is known. -/
def c10_start : PMState :=
  { initState with call_state := "active", active_call_path := some "/hfp/call1" }

/-- C10 witness: the theorem applied at a concrete active-call state with an
active call path, exit code 1. -/
theorem C10_witness :
    (hangup_call envLinux c10_start false (RunResult.completed 1 "err")).1
      = { success := true, message := some "State updated" } ∧
    (hangup_call envLinux c10_start false (RunResult.completed 1 "err")).2.1.call_state
      = "idle" ∧
    (hangup_call envLinux c10_start false (RunResult.completed 1 "err")).2.2
      = [DaemonCall.dbusHangup (c10_start.active_call_path.getD ""),
          DaemonCall.dbusSendHangup (fallback_path c10_start)] :=
  C10_theorem envLinux c10_start 1 "err" rfl (by decide) (by decide) (by decide)

/-! ## Recent-calls bookkeeping invariant (claim C6) -/

/-- States that `t` agrees with `s` on the recent-calls list, the ghost insertion log
and the ghost clock (the fields C6 is about). -/
def ghost_eq (s t : PMState) : Prop :=
  t.recent_calls = s.recent_calls ∧ t.call_log = s.call_log ∧ t.now = s.now

/-- The bookkeeping invariant: the recent-calls list is exactly the 20 most
recent insertions (most recent first), every logged entry predates the
clock, and the log is strictly ordered most-recent-first. -/
def C6Inv (s : PMState) : Prop :=
  s.recent_calls = s.call_log.take 20 ∧
  (∀ x ∈ s.call_log, x.time ≤ s.now) ∧
  s.call_log.Chain' (fun a b => b.time < a.time)

theorem C6Inv_of_ghost (s t : PMState) (h : ghost_eq s t) (hi : C6Inv s) : C6Inv t := by
  obtain ⟨h1, h2, h3⟩ := h
  obtain ⟨i1, i2, i3⟩ := hi
  refine ⟨?_, ?_, ?_⟩
  · rw [h1, h2]; exact i1
  · rw [h2, h3]; exact i2
  · rw [h2]; exact i3

theorem ghost_notify (s : PMState) : ghost_eq s (notify_listeners s) :=
  ⟨rfl, rfl, rfl⟩

theorem ghost_hpc (s : PMState) (path : Option String) (ch : Changed)
    (devInfo : Option (String × String)) :
    ghost_eq s (handle_properties_changed s path ch devInfo) := by
  cases ch with
  | call c =>
      obtain ⟨cs, cl, cn⟩ := c
      cases cs <;> cases cl <;> cases cn <;> exact ⟨rfl, rfl, rfl⟩
  | device c =>
      obtain ⟨cc, cn⟩ := c
      rcases cc with _ | b
      · cases cn <;> exact ⟨rfl, rfl, rfl⟩
      · cases b
        · cases cn <;> exact ⟨rfl, rfl, rfl⟩
        · rcases devInfo with _ | ⟨a, d⟩ <;> cases cn <;> exact ⟨rfl, rfl, rfl⟩
  | media c => exact ⟨rfl, rfl, rfl⟩
  | other => exact ⟨rfl, rfl, rfl⟩

theorem ghost_added (s : PMState) (path : String) (cp : Option CallChanged) :
    ghost_eq s (handle_interfaces_added s path cp) := by
  rcases cp with _ | c
  · exact ⟨rfl, rfl, rfl⟩
  · obtain ⟨cs, cl, cn⟩ := c
    cases cs <;> cases cl <;> cases cn <;> exact ⟨rfl, rfl, rfl⟩

theorem answer_state_eq (env : Env) (s : PMState) (d : Bool) (run : RunResult) :
    (answer_call env s d run).2.1 = s := by
  unfold answer_call
  repeat' split
  all_goals rfl

theorem ghost_hangup (env : Env) (s : PMState) (d : Bool) (run : RunResult) :
    ghost_eq s (hangup_call env s d run).2.1 := by
  unfold hangup_call
  repeat' split
  all_goals exact ⟨rfl, rfl, rfl⟩

theorem dial_state_eq (env : Env) (s : PMState) (number : String) :
    (dial_number env s number).2.1 = s := by
  unfold dial_number
  repeat' split
  all_goals rfl

theorem dtmf_state_eq (env : Env) (s : PMState) (digit : String) :
    (send_dtmf env s digit).2 = s := by
  unfold send_dtmf
  repeat' split
  all_goals rfl

theorem ghost_startup (s : PMState) (dev : Option (String × String)) :
    ghost_eq s (check_connected_devices s dev) := by
  rcases dev with _ | ⟨a, n⟩ <;> exact ⟨rfl, rfl, rfl⟩

theorem ghost_poll (s : PMState) (found : Option (String × String)) :
    ghost_eq s (check_connection_bluetoothctl s found) := by
  unfold check_connection_bluetoothctl
  repeat' split
  all_goals exact ⟨rfl, rfl, rfl⟩

/-- Head-inserting into the truncated list and into the untruncated log
keeps the former the 20-prefix of the latter. -/
theorem take20_insert (x : RecentCall) (l1 l2 : List RecentCall) (h : l1 = l2.take 20) :
    (x :: l1).take 20 = (x :: l2).take 20 := by
  subst h
  rw [show (20 : Nat) = 19 + 1 from rfl, List.take_succ_cons, List.take_succ_cons,
    List.take_take]
  norm_num

/-- A new entry at the clock joins a log of strictly earlier entries. -/
theorem log_time_insert (e : RecentCall) (l : List RecentCall) (n : Nat)
    (he : e.time ≤ n) (h : ∀ x ∈ l, x.time < n) : ∀ x ∈ e :: l, x.time ≤ n := by
  intro x hx
  rcases List.mem_cons.mp hx with h' | h'
  · rw [h']; exact he
  · exact Nat.le_of_lt (h x h')

/-- Head-inserting an entry not earlier than the clock preserves the
strictly-decreasing ordering over a log of strictly earlier entries. -/
theorem chain_insert (e : RecentCall) (l : List RecentCall) (n : Nat)
    (he : n ≤ e.time) (h2 : ∀ x ∈ l, x.time < n)
    (h3 : l.Chain' (fun a b => b.time < a.time)) :
    (e :: l).Chain' (fun a b => b.time < a.time) := by
  rw [List.chain'_cons']
  exact ⟨fun y hy => Nat.lt_of_lt_of_le (h2 y (List.mem_of_mem_head? hy)) he, h3⟩

/-- Shows that `_handle_interfaces_removed` preserves the bookkeeping invariant, given
that all logged entries strictly predate the clock (true right after the
clock ticks for the inbound event). -/
theorem C6Inv_removed (s : PMState) (b : Bool)
    (h1 : s.recent_calls = s.call_log.take 20)
    (h2 : ∀ x ∈ s.call_log, x.time < s.now)
    (h3 : s.call_log.Chain' (fun a b => b.time < a.time)) :
    C6Inv (handle_interfaces_removed s b) := by
  cases b
  · exact ⟨h1, fun x hx => Nat.le_of_lt (h2 x hx), h3⟩
  · unfold handle_interfaces_removed
    rcases hc : s.caller_id with _ | cid
    · exact ⟨h1, fun x hx => Nat.le_of_lt (h2 x hx), h3⟩
    · exact ⟨take20_insert _ _ _ h1,
        log_time_insert _ _ _ (Nat.le_refl _) h2,
        chain_insert _ _ _ (Nat.le_refl _) h2 h3⟩

/-- One `step` (clock tick, then event handling) preserves the invariant. -/
theorem C6Inv_step (s : PMState) (e : Event) (h : C6Inv s) : C6Inv (step s e) := by
  obtain ⟨h1, h2, h3⟩ := h
  have h2' : ∀ x ∈ ({ s with now := s.now + 1 } : PMState).call_log,
      x.time < ({ s with now := s.now + 1 } : PMState).now :=
    fun x hx => Nat.lt_succ_of_le (h2 x hx)
  have hInv : C6Inv { s with now := s.now + 1 } :=
    ⟨h1, fun x hx => Nat.le_of_lt (h2' x hx), h3⟩
  show C6Inv (applyEvent { s with now := s.now + 1 } e)
  cases e with
  | propsChanged path ch devInfo => exact C6Inv_of_ghost _ _ (ghost_hpc _ path ch devInfo) hInv
  | ifacesAdded path callProps => exact C6Inv_of_ghost _ _ (ghost_added _ path callProps) hInv
  | ifacesRemoved path hasCall1 => exact C6Inv_removed _ hasCall1 h1 h2' h3
  | cmdAnswer env direct run =>
      show C6Inv (answer_call env _ direct run).2.1
      rw [answer_state_eq]
      exact hInv
  | cmdHangup env direct run => exact C6Inv_of_ghost _ _ (ghost_hangup env _ direct run) hInv
  | cmdReject env direct run => exact C6Inv_of_ghost _ _ (ghost_hangup env _ direct run) hInv
  | cmdDial env number =>
      show C6Inv (dial_number env _ number).2.1
      rw [dial_state_eq]
      exact hInv
  | cmdDtmf env digit =>
      show C6Inv (send_dtmf env _ digit).2
      rw [dtmf_state_eq]
      exact hInv
  | startupCheck dev => exact C6Inv_of_ghost _ _ (ghost_startup _ dev) hInv
  | pollCheck found => exact C6Inv_of_ghost _ _ (ghost_poll _ found) hInv

/-- The invariant holds in every reachable state. -/
theorem C6Inv_run (es : List Event) : C6Inv (run es) := by
  have hi : C6Inv initState :=
    ⟨rfl, fun x hx => absurd hx (List.not_mem_nil x), List.chain'_nil⟩
  suffices h : ∀ (l : List Event) (t : PMState), C6Inv t → C6Inv (l.foldl step t) from
    h es initState hi
  intro l
  induction l with
  | nil => exact fun t ht => ht
  | cons e tl ih => exact fun t ht => ih _ (C6Inv_step t e ht)

/-- C6: in every reachable state, `recent_calls` is exactly the 20 most
recent completed-call insertions (each head-inserted by the Call1
interface-removal handler when a caller identity was present), so it has
length at most 20 and is strictly ordered most-recent-first (by the ghost
insertion timestamps); and the `get_status()` snapshot exposes exactly the
10 most recent of them, so at most 10. -/
theorem C6_theorem (es : List Event) :
    (run es).recent_calls = (run es).call_log.take 20 ∧
    (run es).recent_calls.length ≤ 20 ∧
    (run es).recent_calls.Chain' (fun a b => b.time < a.time) ∧
    (get_status (run es)).recent_calls = (run es).call_log.take 10 ∧
    (get_status (run es)).recent_calls.length ≤ 10 := by
  obtain ⟨h1, h2, h3⟩ := C6Inv_run es
  have htrans : ∀ a b c : RecentCall, b.time < a.time → c.time < b.time → c.time < a.time :=
    fun a b c hab hbc => Nat.lt_trans hbc hab
  refine ⟨h1, ?_, ?_, ?_, ?_⟩
  · rw [h1, List.length_take]
    exact Nat.min_le_left _ _
  · rw [h1]
    exact h3.take 20
  · show (run es).recent_calls.take 10 = (run es).call_log.take 10
    rw [h1, List.take_take]
    norm_num
  · show ((run es).recent_calls.take 10).length ≤ 10
    rw [List.length_take]
    exact Nat.min_le_left _ _
